import Mathlib

/-
Shallow embedding of the NT3H2111 driver (src/src/nt3h2111.c, src/include/nt3h2111.h).

The page transport (nt3h2111_read_page / nt3h2111_write_page) is modeled as a
state transformer over a Bus: a byte addressed backing store for the raw page
space, a log of the bus transactions attempted so far (in order), and a failure
plan assigning to the n-th attempted transaction the nonzero esp_err_t code it
fails with, if any.  C integer parameter types are modeled by explicit
truncation at the call boundary: uint8_t as mod 256, uint16_t as mod 65536.
Error codes are Nat values of the ESP-IDF constants; fallible operations
return Except with the error code.
-/

/-- One bus transaction of the page transport: a whole 16 byte page read or a
whole 16 byte page write, as issued by nt3h2111_read_page and
nt3h2111_write_page. -/
inductive Txn where
  | read (page : Nat)
  | write (page : Nat) (data : List Nat)
deriving DecidableEq

deriving instance DecidableEq for Except

/-- State of the chip plus bus model: the byte addressed backing store of the
raw page space, the ordered log of attempted bus transactions, and a failure
plan giving for the n-th attempted transaction the nonzero error code it fails
with, if any. -/
structure Bus where
  mem : Nat → Nat
  log : List Txn
  failPlan : Nat → Option Nat

def ESP_OK : Nat := 0
def ESP_ERR_NO_MEM : Nat := 0x101
def ESP_ERR_INVALID_ARG : Nat := 0x102
def ESP_ERR_NOT_FOUND : Nat := 0x105

/-- Byte size of device user memory (NT3H2111_USERDATA_LEN in the header). -/
def NT3H2111_USERDATA_LEN : Nat := 884

/-- Byte size of device SRAM (NT3H2111_SRAM_LEN in the header). -/
def NT3H2111_SRAM_LEN : Nat := 64

/-- The 16 bytes of one page of the backing store. -/
def pageBytes (mem : Nat → Nat) (page : Nat) : List Nat :=
  (List.range 16).map fun i => mem (16 * page + i)

/-- Backing store after a committed 16 byte page write. -/
def storePage (mem : Nat → Nat) (page : Nat) (data : List Nat) : Nat → Nat :=
  fun a => if 16 * page ≤ a ∧ a < 16 * page + 16 then data.getD (a - 16 * page) 0 else mem a

/-- nt3h2111_read_page: one whole page bus read (i2c_read_reg).  The page
argument has C type uint8_t.  The write timing wait loop before the
transaction touches neither the store nor the log; its timing is modeled
separately (TState below).  A failed transaction is still logged as
attempted. -/
def nt3h2111_read_page (b : Bus) (page : Nat) : Bus × Except Nat (List Nat) :=
  let p := page % 256
  match b.failPlan b.log.length with
  | some e => ({ b with log := b.log ++ [Txn.read p] }, Except.error e)
  | none => ({ b with log := b.log ++ [Txn.read p] }, Except.ok (pageBytes b.mem p))

/-- nt3h2111_write_page: one whole page bus write (i2c_write_reg_n).  A failed
transaction is logged as attempted but commits nothing to the store. -/
def nt3h2111_write_page (b : Bus) (page : Nat) (data : List Nat) : Bus × Except Nat Unit :=
  let p := page % 256
  match b.failPlan b.log.length with
  | some e => ({ b with log := b.log ++ [Txn.write p data] }, Except.error e)
  | none =>
    ({ mem := storePage b.mem p data, log := b.log ++ [Txn.write p data],
       failPlan := b.failPlan }, Except.ok ())

/-- The while loop of nt3h2111_read_raw over full pages, compiled to
structural recursion on the number of remaining iterations (the C loop runs
while len is at least 16, so exactly len / 16 times, len fixed at entry).
The offset variable has C type uint8_t, so each offset += 16 step wraps
modulo 256. -/
def readFullPages : Nat → Bus → Nat → Bus × Except Nat (List Nat)
  | 0, b, _ => (b, Except.ok [])
  | k + 1, b, offset =>
    match nt3h2111_read_page b (offset / 16) with
    | (b1, Except.error e) => (b1, Except.error e)
    | (b1, Except.ok page) =>
      match readFullPages k b1 ((offset + 16) % 256) with
      | (b2, Except.error e) => (b2, Except.error e)
      | (b2, Except.ok rest) => (b2, Except.ok (page ++ rest))

/-- The part of nt3h2111_read_raw after the misaligned head: the while loop
over full pages followed by the final misaligned tail read (read the page,
copy out the leading len mod 16 bytes). -/
def readRawAligned (b : Bus) (offset len : Nat) : Bus × Except Nat (List Nat) :=
  match readFullPages (len / 16) b offset with
  | (b1, Except.error e) => (b1, Except.error e)
  | (b1, Except.ok full) =>
    if len % 16 = 0 then (b1, Except.ok full)
    else
      match nt3h2111_read_page b1 (((offset + 16 * (len / 16)) % 256) / 16) with
      | (b2, Except.error e) => (b2, Except.error e)
      | (b2, Except.ok page) => (b2, Except.ok (full ++ page.take (len % 16)))

/-- nt3h2111_read_raw: unaligned raw read.  Both offset and len have C type
uint8_t, so both are truncated modulo 256 at the call boundary.  If the
offset is misaligned the covering page is read (even when len = 0, since the
C only tests misalign) and min (16 - misalign) len bytes are copied out from
position misalign; then the aligned remainder runs. -/
def nt3h2111_read_raw (b : Bus) (offset len : Nat) : Bus × Except Nat (List Nat) :=
  let ofs := offset % 256
  let l := len % 256
  let misalign := ofs % 16
  if misalign ≠ 0 then
    let rlen := min (16 - misalign) l
    match nt3h2111_read_page b (ofs / 16) with
    | (b1, Except.error e) => (b1, Except.error e)
    | (b1, Except.ok page) =>
      match readRawAligned b1 ((ofs + rlen) % 256) (l - rlen) with
      | (b2, Except.error e) => (b2, Except.error e)
      | (b2, Except.ok rest) => (b2, Except.ok ((page.drop misalign).take rlen ++ rest))
  else readRawAligned b ofs l

/-- The while loop of nt3h2111_write_raw over full pages, compiled to
structural recursion on the number of remaining iterations; every iteration
writes the next 16 bytes of data directly, and the uint8_t offset wraps
modulo 256 on each offset += 16 step. -/
def writeFullPages : Nat → Bus → Nat → List Nat → Bus × Except Nat Unit
  | 0, b, _, _ => (b, Except.ok ())
  | k + 1, b, offset, data =>
    match nt3h2111_write_page b (offset / 16) (data.take 16) with
    | (b1, Except.error e) => (b1, Except.error e)
    | (b1, Except.ok _) => writeFullPages k b1 ((offset + 16) % 256) (data.drop 16)

/-- The part of nt3h2111_write_raw after the misaligned head: the while loop
over full pages followed by the final misaligned tail, which is a
read-modify-write of the covering page (copy data into the leading len mod 16
bytes of the page image, write the page back). -/
def writeRawAligned (b : Bus) (offset len : Nat) (data : List Nat) : Bus × Except Nat Unit :=
  match writeFullPages (len / 16) b offset data with
  | (b1, Except.error e) => (b1, Except.error e)
  | (b1, Except.ok _) =>
    let rem := len % 16
    if rem = 0 then (b1, Except.ok ())
    else
      let ofs := (offset + 16 * (len / 16)) % 256
      let dat := data.drop (16 * (len / 16))
      match nt3h2111_read_page b1 (ofs / 16) with
      | (b2, Except.error e) => (b2, Except.error e)
      | (b2, Except.ok page) => nt3h2111_write_page b2 (ofs / 16) (dat.take rem ++ page.drop rem)

/-- nt3h2111_write_raw: unaligned raw write.  Both offset and len have C type
uint8_t, so both are truncated modulo 256 at the call boundary.  If the
offset is misaligned the head is a read-modify-write of the covering page
(done even when len = 0, since the C only tests misalign): the page is read,
min (16 - misalign) len bytes of data replace the page image from position
misalign, and the page is written back; then the aligned remainder runs. -/
def nt3h2111_write_raw (b : Bus) (offset len : Nat) (data : List Nat) : Bus × Except Nat Unit :=
  let ofs := offset % 256
  let l := len % 256
  let misalign := ofs % 16
  if misalign ≠ 0 then
    let rlen := min (16 - misalign) l
    match nt3h2111_read_page b (ofs / 16) with
    | (b1, Except.error e) => (b1, Except.error e)
    | (b1, Except.ok page) =>
      let tmp := page.take misalign ++ data.take rlen ++ page.drop (misalign + rlen)
      match nt3h2111_write_page b1 (ofs / 16) tmp with
      | (b2, Except.error e) => (b2, Except.error e)
      | (b2, Except.ok _) => writeRawAligned b2 ((ofs + rlen) % 256) (l - rlen) (data.drop rlen)
  else writeRawAligned b ofs l data

/-- nt3h2111_read_user: offset has C type uint16_t, len has C type uint8_t.
A zero length returns OK before the bounds check; the bounds check rejects
offset + len > NT3H2111_USERDATA_LEN; otherwise the read is forwarded to
nt3h2111_read_raw at 16 + offset. -/
def nt3h2111_read_user (b : Bus) (offset len : Nat) : Bus × Except Nat (List Nat) :=
  let ofs := offset % 65536
  let l := len % 256
  if l = 0 then (b, Except.ok [])
  else if NT3H2111_USERDATA_LEN < ofs + l then (b, Except.error ESP_ERR_INVALID_ARG)
  else nt3h2111_read_raw b (16 + ofs) l

/-- nt3h2111_write_user: offset has C type uint16_t, len has C type uint8_t.
Zero length returns OK before the bounds check; otherwise bounds check then
forward to nt3h2111_write_raw at 16 + offset. -/
def nt3h2111_write_user (b : Bus) (offset len : Nat) (data : List Nat) : Bus × Except Nat Unit :=
  let ofs := offset % 65536
  let l := len % 256
  if l = 0 then (b, Except.ok ())
  else if NT3H2111_USERDATA_LEN < ofs + l then (b, Except.error ESP_ERR_INVALID_ARG)
  else nt3h2111_write_raw b (16 + ofs) l data

/-- nt3h2111_read_sram: offset and len have C type uint8_t.  Zero length
returns OK before the bounds check; otherwise bounds check against
NT3H2111_SRAM_LEN then forward to nt3h2111_read_raw at 248 * 16 + offset. -/
def nt3h2111_read_sram (b : Bus) (offset len : Nat) : Bus × Except Nat (List Nat) :=
  let ofs := offset % 256
  let l := len % 256
  if l = 0 then (b, Except.ok [])
  else if NT3H2111_SRAM_LEN < ofs + l then (b, Except.error ESP_ERR_INVALID_ARG)
  else nt3h2111_read_raw b (248 * 16 + ofs) l

/-- nt3h2111_write_sram: offset and len have C type uint8_t.  Zero length
returns OK before the bounds check; otherwise bounds check against
NT3H2111_SRAM_LEN then forward to nt3h2111_write_raw at 248 * 16 + offset. -/
def nt3h2111_write_sram (b : Bus) (offset len : Nat) (data : List Nat) : Bus × Except Nat Unit :=
  let ofs := offset % 256
  let l := len % 256
  if l = 0 then (b, Except.ok ())
  else if NT3H2111_SRAM_LEN < ofs + l then (b, Except.error ESP_ERR_INVALID_ARG)
  else nt3h2111_write_raw b (248 * 16 + ofs) l data

/-- read_uint48 generated by GEN_RW_UINT(48, uint32_t): the accumulator out
has C type uint32_t, and each step is out |= ptr[i] << (i*8) where ptr[i] is
promoted to a 32 bit int.  For i = 4 and i = 5 the shift distance reaches 32
and 40, which on a 32 bit int is undefined behavior in C; we model each step
as a mathematical shift ORed into the accumulator and then truncated to the
32 bit accumulator width, so every bit at weight 2^32 or above is lost.  The
theorems below rely only on the robust consequence that the result of the
uint32_t accumulator is below 2^32. -/
def read_uint48 (ptr : List Nat) : Nat :=
  (List.range 6).foldl (fun out i => (out ||| (ptr.getD i 0 <<< (i * 8))) % 2 ^ 32) 0

/-- nt3h2111_get_serial: raw read of 6 bytes at raw offset 1, assembled by
read_uint48 and stored through the uint64_t out pointer on success. -/
def nt3h2111_get_serial (b : Bus) : Bus × Except Nat Nat :=
  match nt3h2111_read_raw b 1 6 with
  | (b1, Except.error e) => (b1, Except.error e)
  | (b1, Except.ok tmp) => (b1, Except.ok (read_uint48 tmp))

/-- The serial number as claim C4 states it: the 48 bit little endian value
formed from the six bytes at raw offsets 1 to 6.  Stated from the words of
the claim, for comparison against the code model. -/
def serialSpec (mem : Nat → Nat) : Nat :=
  mem 1 + mem 2 * 2 ^ 8 + mem 3 * 2 ^ 16 + mem 4 * 2 ^ 24 + mem 5 * 2 ^ 32 + mem 6 * 2 ^ 40

/-- nt3h2111_get_ndef.  The C ignores the result of the page 1 read, so when
that bus read fails the 16 byte stack buffer tmp keeps whatever indeterminate
contents it had, modeled by the stackGarbage parameter.  malloc is modeled as
always succeeding; the bytes of the malloc result beyond those actually
filled by nt3h2111_read_user (whose uint8_t len parameter truncates ndef_len
modulo 256) keep indeterminate heap contents, modeled by heapGarbage.  On
success the C outputs the decoded length and the buffer. -/
def nt3h2111_get_ndef (b : Bus) (stackGarbage : List Nat) (heapGarbage : Nat → Nat) :
    Bus × Except Nat (Nat × List Nat) :=
  match nt3h2111_read_page b 1 with
  | (b1, r) =>
    let tmp := match r with
      | Except.ok bytes => bytes
      | Except.error _ => stackGarbage
    if tmp.getD 0 0 ≠ 0x03 then (b1, Except.error ESP_ERR_NOT_FOUND)
    else
      let hdr : Nat × Nat :=
        if tmp.getD 1 0 = 0xff then (((tmp.getD 2 0) <<< 8) ||| tmp.getD 3 0, 4)
        else (tmp.getD 1 0, 2)
      match nt3h2111_read_user b1 hdr.2 hdr.1 with
      | (b2, Except.error e) => (b2, Except.error e)
      | (b2, Except.ok bytes) =>
        let buf := bytes ++ (List.range (hdr.1 - bytes.length)).map
          fun i => heapGarbage (bytes.length + i)
        (b2, Except.ok (hdr.1, buf))

/-- nt3h2111_set_ndef.  len has C type size_t; the nt3h2111_write_user calls
receive it through a uint8_t parameter (truncating).  The C stores the result
of the payload write in res but never tests it, discards the result of the
terminator write, and ends with return ESP_OK; only a header write failure is
propagated. -/
def nt3h2111_set_ndef (b : Bus) (len : Nat) (data : List Nat) : Bus × Except Nat Unit :=
  if NT3H2111_USERDATA_LEN - 4 ≤ len then (b, Except.error ESP_ERR_NO_MEM)
  else
    let hdr : List Nat × Nat :=
      if 0xff ≤ len then ([0x03, 0xff, (len >>> 8) % 256, len % 256], 4)
      else ([0x03, len % 256, 0x00, 0x00], 2)
    match nt3h2111_write_user b 0 hdr.2 hdr.1 with
    | (b1, Except.error e) => (b1, Except.error e)
    | (b1, Except.ok _) =>
      match nt3h2111_write_user b1 hdr.2 len data with
      | (b2, _res) =>
        match nt3h2111_write_user b2 (hdr.2 + len) 1 [0xfe] with
        | (b3, _) => (b3, Except.ok ())

/-- Timed model of nt3h2111_write_page for the write interlock: time in
microseconds.  The wait loop exits once lastWriteTime + 5000 is at most the
current time; the C then assigns last_write_time from esp_timer_get_time
BEFORE issuing the bus write (source lines 345 and 347), and the bus write
transaction then occupies busDur microseconds.  Returns the new state
together with the start and completion times of the bus write transaction. -/
structure TState where
  now : Nat
  lastWriteTime : Nat
deriving DecidableEq

def write_page_timed (s : TState) (busDur : Nat) : TState × Nat × Nat :=
  let t := max s.now (s.lastWriteTime + 5000)
  ({ now := t + busDur, lastWriteTime := t }, t, t + busDur)

/-- A bus with an all zero store, an empty log, and no failing transaction. -/
def busZero : Bus := { mem := fun _ => 0, log := [], failPlan := fun _ => none }

/-- A bus whose store holds 1 in every byte of pages 0 to 15 and 2 in every
byte from raw address 256 upward, with no failing transaction. -/
def busSplit : Bus := { mem := fun a => if a < 256 then 1 else 2, log := [], failPlan := fun _ => none }

/-- A bus whose store holds 1 at raw address 6 and 0 elsewhere, with no
failing transaction. -/
def busSerial : Bus := { mem := fun a => if a = 6 then 1 else 0, log := [], failPlan := fun _ => none }

/-- A bus with an all zero store on which the fourth attempted transaction
(index 3) fails with error code 263 and all others succeed. -/
def busFailPayload : Bus :=
  { mem := fun _ => 0, log := [], failPlan := fun n => if n = 3 then some 263 else none }

/-- A bus with an all zero store on which the first attempted transaction
(index 0) fails with error code 263 and all others succeed. -/
def busFailFirst : Bus :=
  { mem := fun _ => 0, log := [], failPlan := fun n => if n = 0 then some 263 else none }

theorem pageBytes_getD (mem : Nat → Nat) (p i : Nat) (h : i < 16) :
    (pageBytes mem p).getD i 0 = mem (16 * p + i) := by
  rw [pageBytes, List.getD_eq_getElem?_getD, List.getElem?_map, List.getElem?_range h]
  rfl

theorem storePage_pageBytes (mem : Nat → Nat) (p : Nat) :
    storePage mem p (pageBytes mem p) = mem := by
  funext a
  simp only [storePage]
  split
  · next h =>
    rw [pageBytes_getD mem p (a - 16 * p) (by omega)]
    exact congrArg mem (by omega)
  · rfl

theorem read_page_ok (b : Bus) (page : Nat) (hf : b.failPlan b.log.length = none)
    (hp : page < 256) :
    nt3h2111_read_page b page =
      ({ b with log := b.log ++ [Txn.read page] }, Except.ok (pageBytes b.mem page)) := by
  simp only [nt3h2111_read_page, hf, Nat.mod_eq_of_lt hp]

theorem write_page_ok (b : Bus) (page : Nat) (d : List Nat)
    (hf : b.failPlan b.log.length = none) (hp : page < 256) :
    nt3h2111_write_page b page d =
      ({ mem := storePage b.mem page d, log := b.log ++ [Txn.write page d],
         failPlan := b.failPlan }, Except.ok ()) := by
  simp only [nt3h2111_write_page, hf, Nat.mod_eq_of_lt hp]

theorem readRawAligned_zero (b : Bus) (offset : Nat) :
    readRawAligned b offset 0 = (b, Except.ok []) := rfl

theorem writeRawAligned_zero (b : Bus) (offset : Nat) (d : List Nat) :
    writeRawAligned b offset 0 d = (b, Except.ok ()) := rfl

theorem read_raw_zero_misaligned (b : Bus) (offset : Nat)
    (hnf : ∀ n, b.failPlan n = none) (hm : offset % 256 % 16 ≠ 0) :
    nt3h2111_read_raw b offset 0 =
      ({ b with log := b.log ++ [Txn.read (offset % 256 / 16)] }, Except.ok []) := by
  have hp : offset % 256 / 16 < 256 := by omega
  simp only [nt3h2111_read_raw, Nat.zero_mod, if_pos hm, Nat.min_zero,
    read_page_ok b (offset % 256 / 16) (hnf _) hp, readRawAligned_zero,
    Nat.sub_zero, List.take_zero, List.append_nil]

theorem write_raw_zero_misaligned (b : Bus) (offset : Nat) (d : List Nat)
    (hnf : ∀ n, b.failPlan n = none) (hm : offset % 256 % 16 ≠ 0) :
    nt3h2111_write_raw b offset 0 d =
      ({ mem := b.mem,
         log := b.log ++ [Txn.read (offset % 256 / 16),
           Txn.write (offset % 256 / 16) (pageBytes b.mem (offset % 256 / 16))],
         failPlan := b.failPlan }, Except.ok ()) := by
  have hp : offset % 256 / 16 < 256 := by omega
  simp only [nt3h2111_write_raw, Nat.zero_mod, if_pos hm, Nat.min_zero,
    nt3h2111_read_page, nt3h2111_write_page, hnf, Nat.mod_eq_of_lt hp,
    List.take_zero, List.append_nil, List.nil_append, Nat.add_zero, List.take_append_drop,
    Nat.sub_zero, writeRawAligned_zero, storePage_pageBytes,
    List.append_assoc, List.cons_append]

/-- C1: the claim says nt3h2111_read_raw addresses the full 0 to 4095 raw
space and returns the bytes at positions offset to offset + length for any
offset + length up to 4096.  The offset parameter has C type uint8_t, so the
translator wraps modulo 256: at offset 250 and length 10 the code reads page
15 and then wraps around to page 0, returning the bytes at raw addresses 250
to 255 followed by those at 0 to 3 instead of those at 256 to 259. -/
theorem C1_read_raw_offset_wraps :
    (nt3h2111_read_raw busSplit 250 10).2 = Except.ok (List.replicate 10 1) ∧
    (nt3h2111_read_raw busSplit 250 10).1.log = [Txn.read 15, Txn.read 0] ∧
    (List.range 10).map (fun i => busSplit.mem (250 + i)) =
      List.replicate 6 1 ++ List.replicate 4 2 ∧
    List.replicate 10 1 ≠ List.replicate 6 1 ++ List.replicate 4 2 := by decide

/-- C2: the claim says a writeRaw never changes a byte outside the written
range.  Because the uint8_t offset wraps modulo 256, nt3h2111_write_raw at
offset 250 with length 10 wraps past raw address 255 and overwrites raw
addresses 0 to 3 of page 0: address 0, which lies outside the written range
250 to 259, changes from 1 to 7. -/
theorem C2_write_raw_wraparound_clobbers :
    (nt3h2111_write_raw busSplit 250 10 (List.replicate 10 7)).2 = Except.ok () ∧
    (nt3h2111_write_raw busSplit 250 10 (List.replicate 10 7)).1.mem 0 = 7 ∧
    busSplit.mem 0 = 1 ∧ (0 : Nat) < 250 := by decide

/-- C3 counterexample: the claim says every read or write operation called
with length 0 performs zero bus transactions at any offset.  A length 0
nt3h2111_read_raw at the misaligned offset 1 performs one page read: the
transaction log goes from empty to one read of page 0 (the C tests only the
misalignment, not the length, before reading the head page). -/
theorem C3_zero_length_counterexample :
    (nt3h2111_read_raw busZero 1 0).2 = Except.ok [] ∧
    (nt3h2111_read_raw busZero 1 0).1.log = [Txn.read 0] ∧
    ([Txn.read 0] : List Txn) ≠ [] := by decide

/-- C3 as amended: zero length calls to the user and SRAM operations return
success with no bus transaction at every offset; a zero length
nt3h2111_read_raw or nt3h2111_write_raw also returns success and performs
zero transactions when the offset is page aligned, but at a misaligned
offset the read performs one page read and the write performs one page read
plus one write-back of the unchanged page image, leaving the store intact. -/
theorem C3_zero_length_amended (b : Bus) (offset : Nat) (d : List Nat)
    (hnf : ∀ n, b.failPlan n = none) :
    (nt3h2111_read_user b offset 0 = (b, Except.ok []) ∧
     nt3h2111_write_user b offset 0 d = (b, Except.ok ()) ∧
     nt3h2111_read_sram b offset 0 = (b, Except.ok []) ∧
     nt3h2111_write_sram b offset 0 d = (b, Except.ok ())) ∧
    (offset % 256 % 16 = 0 →
      nt3h2111_read_raw b offset 0 = (b, Except.ok []) ∧
      nt3h2111_write_raw b offset 0 d = (b, Except.ok ())) ∧
    (offset % 256 % 16 ≠ 0 →
      nt3h2111_read_raw b offset 0 =
        ({ b with log := b.log ++ [Txn.read (offset % 256 / 16)] }, Except.ok []) ∧
      nt3h2111_write_raw b offset 0 d =
        ({ mem := b.mem,
           log := b.log ++ [Txn.read (offset % 256 / 16),
             Txn.write (offset % 256 / 16) (pageBytes b.mem (offset % 256 / 16))],
           failPlan := b.failPlan }, Except.ok ())) := by
  refine ⟨⟨rfl, rfl, rfl, rfl⟩, fun h => ?_, fun h =>
    ⟨read_raw_zero_misaligned b offset hnf h, write_raw_zero_misaligned b offset d hnf h⟩⟩
  constructor <;>
  · simp only [nt3h2111_read_raw, nt3h2111_write_raw, Nat.zero_mod, if_neg (not_not_intro h),
      readRawAligned_zero, writeRawAligned_zero]

/-- C3 witness: the amended statement evaluated on the all zero bus at the
misaligned offset 1 and at user offset 1. -/
theorem C3_zero_length_amended_witness :
    nt3h2111_read_user busZero 1 0 = (busZero, Except.ok []) ∧
    nt3h2111_read_raw busZero 1 0 =
      ({ busZero with log := busZero.log ++ [Txn.read (1 % 256 / 16)] }, Except.ok []) ∧
    nt3h2111_write_raw busZero 1 0 [] =
      ({ mem := busZero.mem,
         log := busZero.log ++ [Txn.read (1 % 256 / 16),
           Txn.write (1 % 256 / 16) (pageBytes busZero.mem (1 % 256 / 16))],
         failPlan := busZero.failPlan }, Except.ok ()) :=
  ⟨(C3_zero_length_amended busZero 1 [] (fun _ => rfl)).1.1,
   ((C3_zero_length_amended busZero 1 [] (fun _ => rfl)).2.2 (by decide)).1,
   ((C3_zero_length_amended busZero 1 [] (fun _ => rfl)).2.2 (by decide)).2⟩

/-- C4: the claim says nt3h2111_get_serial returns the full 48 bit little
endian value of the six bytes at raw offsets 1 to 6.  The accumulator of
read_uint48 has C type uint32_t (GEN_RW_UINT(48, uint32_t)), so the result
is always below 2^32: on a store whose byte at raw offset 6 is 1 the claimed
value is 2^40 but the code yields 0. -/
theorem C4_serial_truncated_to_32_bits :
    (nt3h2111_get_serial busSerial).2 = Except.ok 0 ∧
    serialSpec busSerial.mem = 2 ^ 40 ∧ (0 : Nat) ≠ 2 ^ 40 := by decide

/-- C5: the claim says the NDEF round-trip succeeds for payload length 254.
On a fresh all zero store, nt3h2111_set_ndef with a 254 byte payload returns
success, but its terminator write lands at user offset 256, whose raw
address 16 + 256 wraps modulo 256 to raw address 16 — the magic byte of the
header — so the following nt3h2111_get_ndef fails with ESP_ERR_NOT_FOUND
instead of returning the payload (the payload write itself also wraps past
raw address 255 and clobbers page 0). -/
theorem C5_ndef_roundtrip_254_fails :
    (nt3h2111_set_ndef busZero 254 (List.replicate 254 0)).2 = Except.ok () ∧
    (nt3h2111_get_ndef (nt3h2111_set_ndef busZero 254 (List.replicate 254 0)).1
      (List.replicate 16 0) (fun _ => 0)).2 = Except.error ESP_ERR_NOT_FOUND := by decide

/-- C6: the claim says a payload write failure makes nt3h2111_set_ndef
return that error.  On a bus where the fourth transaction (the page write of
the payload read-modify-write) fails with code 263, the header write
succeeds, the payload write fails with 263, yet nt3h2111_set_ndef returns
success: the C stores the payload write result in res but never tests it
and ends with return ESP_OK. -/
theorem C6_payload_write_error_swallowed :
    (nt3h2111_set_ndef busFailPayload 1 [171]).2 = Except.ok () ∧
    (nt3h2111_write_user busFailPayload 0 2 [3, 1, 0, 0]).2 = Except.ok () ∧
    (nt3h2111_write_user (nt3h2111_write_user busFailPayload 0 2 [3, 1, 0, 0]).1
      2 1 [171]).2 = Except.error 263 := by decide

/-- C7: the claim says nt3h2111_get_ndef fails with the bus error when the
page 1 read fails.  The C ignores the result of nt3h2111_read_page, so on a
bus whose first transaction fails with code 263 and with stack garbage whose
first byte happens to be 0x03, nt3h2111_get_ndef interprets the garbage as a
header and returns success instead of the bus error. -/
theorem C7_page1_read_failure_ignored :
    (nt3h2111_read_page busFailFirst 1).2 = Except.error 263 ∧
    (nt3h2111_get_ndef busFailFirst (3 :: List.replicate 15 0) (fun _ => 0)).2 =
      Except.ok (0, []) := by decide

/-- C8: for every nonzero length, the user and SRAM operations reject
offset + length beyond the region bound (884 for user data, 64 for SRAM)
with ESP_ERR_INVALID_ARG while leaving the bus state untouched, and
otherwise forward to the raw translator at raw offset 16 + offset for user
data and 248 * 16 + offset for SRAM. -/
theorem C8_region_bounds_checked (b : Bus) (uoff soff len : Nat) (d : List Nat)
    (hu : uoff < 65536) (hs : soff < 256) (hl : len < 256) (hnz : len ≠ 0) :
    (884 < uoff + len →
      nt3h2111_read_user b uoff len = (b, Except.error ESP_ERR_INVALID_ARG) ∧
      nt3h2111_write_user b uoff len d = (b, Except.error ESP_ERR_INVALID_ARG)) ∧
    (uoff + len ≤ 884 →
      nt3h2111_read_user b uoff len = nt3h2111_read_raw b (16 + uoff) len ∧
      nt3h2111_write_user b uoff len d = nt3h2111_write_raw b (16 + uoff) len d) ∧
    (64 < soff + len →
      nt3h2111_read_sram b soff len = (b, Except.error ESP_ERR_INVALID_ARG) ∧
      nt3h2111_write_sram b soff len d = (b, Except.error ESP_ERR_INVALID_ARG)) ∧
    (soff + len ≤ 64 →
      nt3h2111_read_sram b soff len = nt3h2111_read_raw b (248 * 16 + soff) len ∧
      nt3h2111_write_sram b soff len d = nt3h2111_write_raw b (248 * 16 + soff) len d) := by
  have hu' : uoff % 65536 = uoff := Nat.mod_eq_of_lt hu
  have hs' : soff % 256 = soff := Nat.mod_eq_of_lt hs
  have hl' : len % 256 = len := Nat.mod_eq_of_lt hl
  refine ⟨fun h => ?_, fun h => ?_, fun h => ?_, fun h => ?_⟩ <;>
  · constructor <;>
    · simp only [nt3h2111_read_user, nt3h2111_write_user, nt3h2111_read_sram,
        nt3h2111_write_sram, hu', hs', hl', NT3H2111_USERDATA_LEN, NT3H2111_SRAM_LEN]
      rw [if_neg hnz]
      first
        | rw [if_pos h]
        | rw [if_neg (by omega)]

/-- C8 witness: writeUser at offset 880 with length 10 (880 + 10 > 884)
fails with ESP_ERR_INVALID_ARG and leaves the bus state unchanged. -/
theorem C8_region_bounds_checked_witness :
    nt3h2111_write_user busZero 880 10 (List.replicate 10 0) =
      (busZero, Except.error ESP_ERR_INVALID_ARG) :=
  ((C8_region_bounds_checked busZero 880 0 10 (List.replicate 10 0)
    (by decide) (by decide) (by decide) (by decide)).1 (by decide)).2

/-- C10: a zero length call to any user or SRAM operation returns success
with no bus transaction at every offset, before the bounds check runs; the
same user offset at or beyond 884 with any nonzero length is rejected with
ESP_ERR_INVALID_ARG. -/
theorem C10_zero_length_skips_bounds_check (b : Bus) (offset : Nat) (d : List Nat) :
    nt3h2111_read_user b offset 0 = (b, Except.ok []) ∧
    nt3h2111_write_user b offset 0 d = (b, Except.ok ()) ∧
    nt3h2111_read_sram b offset 0 = (b, Except.ok []) ∧
    nt3h2111_write_sram b offset 0 d = (b, Except.ok ()) ∧
    (∀ len, 0 < len → len < 256 → offset < 65536 → 884 ≤ offset →
      (nt3h2111_read_user b offset len).2 = Except.error ESP_ERR_INVALID_ARG ∧
      (nt3h2111_write_user b offset len d).2 = Except.error ESP_ERR_INVALID_ARG) := by
  refine ⟨rfl, rfl, rfl, rfl, fun len h1 h2 h3 h4 => ?_⟩
  constructor <;>
  · simp only [nt3h2111_read_user, nt3h2111_write_user, Nat.mod_eq_of_lt h3,
      Nat.mod_eq_of_lt h2, NT3H2111_USERDATA_LEN]
    rw [if_neg (by omega), if_pos (by omega)]

/-- C10 witness: readUser at offset 2000 with length 0 succeeds with no bus
activity although the offset lies far outside the 884 byte region, while the
same offset with length 1 is rejected. -/
theorem C10_zero_length_skips_bounds_check_witness :
    nt3h2111_read_user busZero 2000 0 = (busZero, Except.ok []) ∧
    (nt3h2111_read_user busZero 2000 1).2 = Except.error ESP_ERR_INVALID_ARG :=
  ⟨(C10_zero_length_skips_bounds_check busZero 2000 []).1,
   ((C10_zero_length_skips_bounds_check busZero 2000 []).2.2.2.2 1
     (by decide) (by decide) (by decide) (by decide)).1⟩

/-- C9: the claim says a second back-to-back page write starts no earlier
than 5 milliseconds after the first bus write transaction completed, because
writePage supposedly records the timestamp after issuing the write.  The C
records last_write_time from the timer BEFORE issuing the bus write (source
line 345 precedes line 347), so with a 1000 microsecond bus transaction the
second write starts only 4000 microseconds after the first completed. -/
theorem C9_timer_armed_before_bus_write :
    (write_page_timed ⟨1000000, 0⟩ 1000).1.lastWriteTime = 1000000 ∧
    (write_page_timed ⟨1000000, 0⟩ 1000).2.2 = 1001000 ∧
    (write_page_timed (write_page_timed ⟨1000000, 0⟩ 1000).1 1000).2.1 -
      (write_page_timed ⟨1000000, 0⟩ 1000).2.2 = 4000 ∧
    (4000 : Nat) < 5000 := by decide
